import Mathlib

/-!
# Verification of the SocrAI tutor service (socratic_tutor_advanced_v2.py)

A shallow embedding of the FastAPI backend of the tutoring application:
the dialogue handler, the trace/summary readers and the term-extraction
endpoint, together with the in-memory stores they mutate.

Strings are embedded as `List Char`.  The external model is a black box;
each of its (up to three) replies per request is a parameter of type
`Option (List Char)` where `none` models the client call raising an
exception and `some s` models it returning the text `s`.

The Python standard-library pieces the handlers rely on are embedded as
well, from their documented behaviour:
* `re.search(r"\\x7b.*\\x7d", raw, re.S)` — leftmost-then-greedy: the match, when
  it exists, runs from the first brace to the last closing brace.
* `json.loads` — a JSON parser (`jsonLoads` below), restricted to integer
  numerals: fractional/exponent numerals, `NaN`/`Infinity`, and lone
  surrogate escapes are rejected where CPython would accept them.  No
  claim below depends on those inputs.
* `str.strip` / `str.split(" ")` / truthiness — embedded directly.
-/

/-- JSON values as produced by `json.loads`.  Object members are kept in
parse order; duplicate keys are resolved last-wins by `jget`, matching
Python dict construction.  Numbers are restricted to integers (see module
comment). -/
inductive Json where
  | null : Json
  | bool (b : Bool) : Json
  | num (n : Int) : Json
  | str (s : List Char) : Json
  | arr (elems : List Json) : Json
  | obj (members : List (List Char × Json)) : Json

/-- `d.get(k, default)` on a dict built by `json.loads`: the value of the
last member with key `k`, if any. -/
def jget (members : List (List Char × Json)) (k : List Char) : Option Json :=
  members.foldl (fun acc kv => if kv.1 = k then some kv.2 else acc) none

/-- JSON inter-token whitespace (RFC 8259 / CPython `json`). -/
def isJsonWs (c : Char) : Bool :=
  c = ' ' || c = '\t' || c = '\n' || c = '\r'

def skipWs (s : List Char) : List Char := s.dropWhile isJsonWs

/-- Numeric value of a run of ASCII digits. -/
def digitsVal (ds : List Char) : Nat :=
  ds.foldl (fun a c => a * 10 + (c.toNat - '0'.toNat)) 0

/-- ASCII hexadecimal digit. -/
def isHexDig (c : Char) : Bool :=
  c.isDigit || ('a' ≤ c && c ≤ 'f') || ('A' ≤ c && c ≤ 'F')

/-- Value of an ASCII hexadecimal digit. -/
def hexVal (c : Char) : Nat :=
  if c.isDigit then c.toNat - '0'.toNat
  else if 'a' ≤ c then c.toNat - 'a'.toNat + 10
  else c.toNat - 'A'.toNat + 10

/-- Body of a JSON string literal, after the opening quote.  Returns the
decoded characters and the input past the closing quote.  Raw control
characters are rejected (CPython strict mode); `\uXXXX` is decoded without
surrogate pairing. -/
def pStringBody : List Char → Option (List Char × List Char)
  | [] => none
  | '"' :: r => some ([], r)
  | '\\' :: 'u' :: a :: b :: c :: d :: r =>
    if isHexDig a && isHexDig b && isHexDig c && isHexDig d then
      (pStringBody r).map (fun p =>
        (Char.ofNat (4096 * hexVal a + 256 * hexVal b + 16 * hexVal c + hexVal d) :: p.1, p.2))
    else none
  | '\\' :: e :: r =>
    match decodeEsc e with
    | some c => (pStringBody r).map (fun p => (c :: p.1, p.2))
    | none => none
  | c :: r =>
    if c.toNat < 32 then none
    else (pStringBody r).map (fun p => (c :: p.1, p.2))
where
  decodeEsc : Char → Option Char
    | '"' => some '"'
    | '\\' => some '\\'
    | '/' => some '/'
    | 'b' => some (Char.ofNat 8)
    | 'f' => some (Char.ofNat 12)
    | 'n' => some '\n'
    | 'r' => some '\r'
    | 't' => some '\t'
    | _ => none

/-- JSON integer numeral: optional minus, then `0` or a nonzero-led digit
run; a following `.`, `e` or `E` (a float numeral) is rejected (see module
comment). -/
def pNumber (s : List Char) : Option (Json × List Char) :=
  match s with
  | '-' :: r => (pNatNum r).map (fun p => (Json.num (-(p.1 : Int)), p.2))
  | _ => (pNatNum s).map (fun p => (Json.num (p.1 : Int), p.2))
where
  floatStart (r : List Char) : Bool :=
    match r with
    | c :: _ => c = '.' || c = 'e' || c = 'E'
    | [] => false
  pNatNum (s : List Char) : Option (Nat × List Char) :=
    match s with
    | '0' :: r =>
      match r with
      | c :: _ => if c.isDigit || floatStart r then none else some (0, r)
      | [] => some (0, [])
    | c :: _ =>
      if c.isDigit then
        let ds := s.takeWhile Char.isDigit
        let rest := s.dropWhile Char.isDigit
        if floatStart rest then none else some (digitsVal ds, rest)
      else none
    | [] => none

mutual

/-- One JSON value at the head of the input (no leading whitespace). -/
def pValue : Nat → List Char → Option (Json × List Char)
  | 0, _ => none
  | _ + 1, 'n' :: 'u' :: 'l' :: 'l' :: r => some (Json.null, r)
  | _ + 1, 't' :: 'r' :: 'u' :: 'e' :: r => some (Json.bool true, r)
  | _ + 1, 'f' :: 'a' :: 'l' :: 's' :: 'e' :: r => some (Json.bool false, r)
  | _ + 1, '"' :: r => (pStringBody r).map (fun p => (Json.str p.1, p.2))
  | fuel + 1, '[' :: r =>
    match skipWs r with
    | ']' :: r2 => some (Json.arr [], r2)
    | s2 => (pElems fuel s2).map (fun p => (Json.arr p.1, p.2))
  | fuel + 1, '{' :: r =>
    match skipWs r with
    | '}' :: r2 => some (Json.obj [], r2)
    | s2 => (pMembers fuel s2).map (fun p => (Json.obj p.1, p.2))
  | _ + 1, s => pNumber s

/-- Comma-separated array elements up to the closing bracket. -/
def pElems : Nat → List Char → Option (List Json × List Char)
  | 0, _ => none
  | fuel + 1, s =>
    match pValue fuel s with
    | none => none
    | some (v, r) =>
      match skipWs r with
      | ',' :: r2 => (pElems fuel (skipWs r2)).map (fun p => (v :: p.1, p.2))
      | ']' :: r2 => some ([v], r2)
      | _ => none

/-- Comma-separated object members up to the closing brace. -/
def pMembers : Nat → List Char → Option (List (List Char × Json) × List Char)
  | 0, _ => none
  | fuel + 1, s =>
    match s with
    | '"' :: r =>
      match pStringBody r with
      | none => none
      | some (key, r1) =>
        match skipWs r1 with
        | ':' :: r2 =>
          match pValue fuel (skipWs r2) with
          | none => none
          | some (v, r3) =>
            match skipWs r3 with
            | ',' :: r4 => (pMembers fuel (skipWs r4)).map (fun p => ((key, v) :: p.1, p.2))
            | '}' :: r4 => some ([(key, v)], r4)
            | _ => none
        | _ => none
    | _ => none

end

/-- `json.loads`: exactly one JSON value, with surrounding whitespace;
`none` models `json.JSONDecodeError`. -/
def jsonLoads (s : List Char) : Option Json :=
  match pValue (2 * s.length + 2) (skipWs s) with
  | some (j, rest) => if skipWs rest = [] then some j else none
  | none => none

/-- `re.search(r"\\x7b.*\\x7d", raw, re.S)`: leftmost match start is the first
brace; the greedy `.*` (with `re.S`) extends the match to the last closing
brace of the whole text.  Returns the matched substring. -/
def braceExtract (s : List Char) : Option (List Char) :=
  match s.dropWhile (fun c => !(c = '{')) with
  | [] => none
  | rest =>
    match rest.reverse.dropWhile (fun c => !(c = '}')) with
    | [] => none
    | r2 => some r2.reverse

/-- Python whitespace stripped by `str.strip` (ASCII subset). -/
def isPySpace (c : Char) : Bool :=
  c = ' ' || c = '\t' || c = '\n' || c = '\r' || c = Char.ofNat 11 || c = Char.ofNat 12

/-- `str.strip()`. -/
def pyStrip (s : List Char) : List Char :=
  ((s.dropWhile isPySpace).reverse.dropWhile isPySpace).reverse

/-- Python truthiness of a parsed JSON value. -/
def pyTruthy : Json → Bool
  | Json.null => false
  | Json.bool b => b
  | Json.num n => n != 0
  | Json.str s => !s.isEmpty
  | Json.arr l => !l.isEmpty
  | Json.obj m => !m.isEmpty

/-- Python `x or d` for a parsed JSON value `x`. -/
def pyOr (j d : Json) : Json := if pyTruthy j then j else d

/-! ## Request plumbing: `_extract_token` and user identity -/

/-- Python `s.split(" ")`: split at every single space, keeping empty
segments. -/
def pySplitSpace : List Char → List (List Char)
  | [] => [[]]
  | c :: cs =>
    if c = ' ' then [] :: pySplitSpace cs
    else
      match pySplitSpace cs with
      | seg :: rest => (c :: seg) :: rest
      | [] => [[c]]

/-- `_extract_token`: empty for a missing or empty header; otherwise the
second space-separated segment when the header contains a space, else the
whole header. -/
def extractToken (header : Option (List Char)) : List Char :=
  match header with
  | none => []
  | some s =>
    if s = [] then []
    else if ' ' ∈ s then (pySplitSpace s).getD 1 []
    else s

/-! ## The structured-reply recovery step of the dialogue handler
(lines 109–127 of the source). -/

/-- The five locals the dialogue handler recovers from the raw model
reply.  `confidence = none` models Python `None` when the key is absent
(a present-but-`null` key yields `some Json.null`, which the later
`is None` test also treats as unset). -/
structure ParsedReply where
  question : Json
  detection : Json
  fallacies : Json
  confidence : Option Json
  meta : Json

/-- The members of the object recovered from the raw reply, when the
brace-extracted span parses (`m` matched and `json.loads` did not raise). -/
def parsedObject (raw : List Char) : Option (List (List Char × Json)) :=
  match braceExtract raw with
  | none => none
  | some sub =>
    match jsonLoads sub with
    | some (Json.obj members) => some members
    | _ => none
    -- the wildcard can only be a failed parse: the extracted text starts
    -- with a brace, so a successful parse is an object

/-- Lines 109–127: brace-extract the reply, `json.loads` it, and read the
recognized fields with the documented defaults; any failure leaves all
defaults in place. -/
def parseReply (raw : List Char) : ParsedReply :=
  let dflt : ParsedReply :=
    { question := Json.str (pyStrip raw)
      detection := Json.str "(none)".toList
      fallacies := Json.arr []
      confidence := none
      meta := Json.str "(auto)".toList }
  match parsedObject raw with
  | none => dflt
  | some members =>
    { question := (jget members "question".toList).getD dflt.question
      detection := (jget members "detection".toList).getD dflt.detection
      fallacies := (jget members "fallacies".toList).getD (Json.arr [])
      confidence := jget members "confidence".toList
      meta := (jget members "meta".toList).getD dflt.meta }

/-! ## Confidence fallback (lines 128–142). -/

/-- `re.search(r"(\d\x7b1,3\x7d)", s)`: the first digit of `s` starts the match
and the greedy quantifier takes up to three consecutive digits. -/
def firstDigitRun (s : List Char) : Option (List Char) :=
  match s.dropWhile (fun c => !c.isDigit) with
  | [] => none
  | rest => some ((rest.takeWhile Char.isDigit).take 3)

/-- The quick-confidence fallback: second model call (`none` = the call
raised), first 1–3 digit run, clamp into `[0, 100]`, default 50. -/
def estimateConfidence (reply : Option (List Char)) : Int :=
  match reply with
  | none => 50
  | some c_raw =>
    match firstDigitRun c_raw with
    | none => 50
    | some ds => min 100 (max 0 ((digitsVal ds : Int)))

/-- Lines 128–142 as a whole: keep a parsed confidence verbatim; run the
estimator only when it is unset (absent key or JSON `null`, both Python
`None`). -/
def resolveConfidence (parsed : Option Json) (estReply : Option (List Char)) : Json :=
  match parsed with
  | none => Json.num (estimateConfidence estReply)
  | some Json.null => Json.num (estimateConfidence estReply)
  | some v => v

/-! ## Data model: the three in-memory stores -/

/-- One entry of `CONVERSATIONS`.  The text is a `Json` value because the
handler stores whatever the `question` field parsed to.  The `0.001`
float offset on the ai turn's timestamp is not representable here; both
turns of an exchange carry the handler's timestamp. -/
structure Turn where
  role : List Char
  text : Json
  ts : Int
  user : List Char

/-- One entry of `REASONING_TRACE`. -/
structure TraceRecord where
  student_claim : List Char
  interpretation : Json
  detected_issue : Json
  detected_fallacies : Json
  confidence : Json
  follow_up : Json
  ts : Int
  user : List Char

/-- One value of `SESSION_PROFILES`.  Concept counts are keyed by the
parsed JSON term (Python uses them as dict keys). -/
structure UserProfile where
  persona : List Char
  history_count : Nat
  concept_counts : List (Json × Nat)

/-- The three module-level stores. -/
structure ServerState where
  conversations : List Turn
  reasoning_trace : List TraceRecord
  session_profiles : List (List Char × UserProfile)

def emptyState : ServerState := ⟨[], [], []⟩

/-- `DialogueRequest` (the pydantic model). -/
structure DialogueRequest where
  mode : List Char
  persona : List Char
  topic : List Char
  student_text : List Char

/-- The up-to-three external-model replies a single dialogue call can
consume; `none` models the client call raising an exception. -/
structure ModelOracle where
  primary : Option (List Char)
  confEst : Option (List Char)
  terms : Option (List Char)

/-- The JSON body returned by `POST /api/dialogue` on success. -/
structure DialogueResponse where
  new_turns : List (List Char × Json)
  status : List Char
  detected_fallacies : Json
  confidence : Json

/-! ### `SESSION_PROFILES` as an association list (Python dict with
unique keys; first-match lookup and in-place replace). -/

/-- Dict lookup. -/
def alookup {β : Type} : List (List Char × β) → List Char → Option β
  | [], _ => none
  | kv :: rest, k => if kv.1 = k then some kv.2 else alookup rest k

/-- Dict assignment: replace the first binding of the key, or append a new
binding (CPython insertion order). -/
def profileSet {β : Type} : List (List Char × β) → List Char → β → List (List Char × β)
  | [], k, v => [(k, v)]
  | kv :: rest, k, v => if kv.1 = k then (k, v) :: rest else kv :: profileSet rest k v

/-- Lines 79–80: `if user_id not in SESSION_PROFILES: SESSION_PROFILES[user_id] = {...}`. -/
def ensureProfile (ps : List (List Char × UserProfile)) (uid persona : List Char) :
    List (List Char × UserProfile) :=
  match alookup ps uid with
  | some _ => ps
  | none => profileSet ps uid ⟨persona, 0, []⟩

/-- Line 174: `SESSION_PROFILES[user_id]["history_count"] += 1`.  The key
is always present at this point (inserted at the top of the handler); a
missing key would raise `KeyError` in Python and cannot occur. -/
def bumpHistory (ps : List (List Char × UserProfile)) (uid : List Char) :
    List (List Char × UserProfile) :=
  match alookup ps uid with
  | some p => profileSet ps uid { p with history_count := p.history_count + 1 }
  | none => ps

/-! ### Concept-count telemetry (lines 159–172). -/

/-- Python-hashable parsed JSON values (usable as dict keys). -/
def jsonHashable : Json → Bool
  | Json.arr _ => false
  | Json.obj _ => false
  | _ => true

/-- Dict-key equality for hashable parsed JSON values (Python's cross-type
`True == 1` key identification is not modelled; no claim exercises it). -/
def hkeyBeq : Json → Json → Bool
  | Json.null, Json.null => true
  | Json.bool a, Json.bool b => a = b
  | Json.num a, Json.num b => a = b
  | Json.str a, Json.str b => a = b
  | _, _ => false

/-- `cc[term] = cc.get(term, 0) + 1`. -/
def ccIncr (cc : List (Json × Nat)) (t : Json) : List (Json × Nat) :=
  match ccFind cc t with
  | some n => ccSet cc t (n + 1)
  | none => cc ++ [(t, 1)]
where
  ccFind : List (Json × Nat) → Json → Option Nat
    | [], _ => none
    | kv :: rest, k => if hkeyBeq kv.1 k then some kv.2 else ccFind rest k
  ccSet : List (Json × Nat) → Json → Nat → List (Json × Nat)
    | [], k, v => [(k, v)]
    | kv :: rest, k, v => if hkeyBeq kv.1 k then (k, v) :: rest else kv :: ccSet rest k v

/-- The `for term in ...` loop: an unhashable term raises `TypeError`,
which the surrounding bare `except` swallows, keeping the increments
already made. -/
def incrTermsList (cc : List (Json × Nat)) : List Json → List (Json × Nat)
  | [] => cc
  | t :: rest => if jsonHashable t then incrTermsList (ccIncr cc t) rest else cc

/-- What `for term in v` iterates over for the possible parsed values of
the `terms` field: a list iterates its elements, a string its characters,
a dict its keys; anything else raises `TypeError` (swallowed, so no
increment happens). -/
def termsIterList : Json → Option (List Json)
  | Json.arr l => some l
  | Json.str s => some (s.map (fun c => Json.str [c]))
  | Json.obj ms => some (ms.map (fun kv => Json.str kv.1))
  | _ => none

/-- The sequence of terms the loop of lines 167–170 iterates over, or
`none` when nothing is iterated: the model call raised, no brace match,
`json.loads` raised, the `terms` key is absent (`.get` default `[]`
iterates nothing), or the value is not iterable (`TypeError`, swallowed). -/
def termsOf (reply : Option (List Char)) : Option (List Json) :=
  match reply with
  | none => none
  | some t_raw =>
    match braceExtract t_raw with
    | none => none
    | some m =>
      match jsonLoads m with
      | none => none
      | some (Json.obj ms) =>
        match jget ms "terms".toList with
        | none => none
        | some tv => termsIterList tv
      | some _ => none
      -- unreachable: the extracted text starts with a brace, so a
      -- successful parse is an object

/-- Lines 159–172: third model call, brace-extract + parse, and per-term
concept-count increments; every failure path is swallowed by the bare
`except`.  The profile key is always present here (inserted at the top of
the handler); a missing key would raise `KeyError` and cannot occur. -/
def applyTermsStep (ps : List (List Char × UserProfile)) (uid : List Char)
    (reply : Option (List Char)) : List (List Char × UserProfile) :=
  match termsOf reply with
  | none => ps
  | some terms =>
    match alookup ps uid with
    | none => ps
    | some p =>
      profileSet ps uid
        { p with concept_counts := incrTermsList p.concept_counts terms }

/-! ## `POST /api/dialogue` (lines 72–176).

The system-prompt composition (lines 82–101) only shapes the text sent to
the external model; since the model's replies are oracle parameters here,
it does not appear in the embedding. -/

/-- The dialogue handler.  Returns the stores after the call together with
the HTTP outcome (`Except code response`); partial mutations on the error
path are preserved, as in the running Python process. -/
def dialogue (st : ServerState) (req : DialogueRequest) (auth : Option (List Char))
    (oracle : ModelOracle) (ts : Int) : ServerState × Except Nat DialogueResponse :=
  let token := extractToken auth
  if token = [] then (st, Except.error 401)
  else
    let uid := token.take 8
    let st1 : ServerState :=
      { st with session_profiles := ensureProfile st.session_profiles uid req.persona }
    match oracle.primary with
    | none => (st1, Except.error 500)
    | some raw =>
      let parsed := parseReply raw
      let conf := resolveConfidence parsed.confidence oracle.confEst
      let st2 : ServerState :=
        { st1 with
          conversations := st1.conversations ++
            [⟨"student".toList, Json.str req.student_text, ts, uid⟩,
             ⟨"ai".toList, parsed.question, ts, uid⟩]
          reasoning_trace := st1.reasoning_trace ++
            [⟨req.student_text, pyOr parsed.meta (Json.str "(auto)".toList),
              pyOr parsed.detection (Json.str "(none)".toList),
              parsed.fallacies, conf, parsed.question, ts, uid⟩] }
      let st3 : ServerState :=
        { st2 with session_profiles :=
            bumpHistory (applyTermsStep st2.session_profiles uid oracle.terms) uid }
      (st3, Except.ok ⟨[("ai".toList, parsed.question)], "ok".toList, parsed.fallacies, conf⟩)

/-! ## `GET /api/summary` (lines 189–203). -/

/-- The trace slice a read endpoint sees: the caller's records when a
token is present, the whole store otherwise. -/
def selectTrace (st : ServerState) (auth : Option (List Char)) : List TraceRecord :=
  let token := extractToken auth
  if token = [] then st.reasoning_trace
  else st.reasoning_trace.filter (fun t => t.user = token.take 8)

/-- `x == "(none)"` for a stored detection value (false for any
non-string). -/
def isNoneStr : Json → Bool
  | Json.str s => s = "(none)".toList
  | _ => false

/-- Line 199: `t.get("detected_issue") and t.get("detected_issue") != "(none)"`. -/
def isFlaw (t : TraceRecord) : Bool :=
  pyTruthy t.detected_issue && !isNoneStr t.detected_issue

structure SummaryResponse where
  summary : List Char
  score : Int
  flaws : Nat
  total : Nat

/-- The summary handler. -/
def get_summary (st : ServerState) (auth : Option (List Char)) : SummaryResponse :=
  let trace := selectTrace st auth
  if trace.isEmpty then ⟨"No reasoning trace available.".toList, 100, 0, 0⟩
  else
    let flaws := (trace.filter isFlaw).length
    let total := trace.length
    let score : Int := max 0 (100 - (flaws : Int) * 8)
    ⟨("During this dialogue, " ++ toString total ++ " turns were analyzed. "
        ++ toString flaws ++ " potential logical issues or assumptions were detected. "
        ++ "Reasoning consistency score: " ++ toString score ++ "/100.").toList,
      score, flaws, total⟩

/-! ## `POST /api/extract_terms` (lines 205–222). -/

/-- ASCII word character of the regex `\b` / `\w` classes. -/
def wordChar (c : Char) : Bool :=
  ('a' ≤ c && c ≤ 'z') || ('A' ≤ c && c ≤ 'Z') || c.isDigit || c = '_'

/-- Maximal word-character runs of the text, in order (fuel = input
length, consumed one character per step). -/
def wordRunsAux : Nat → List Char → List (List Char)
  | 0, _ => []
  | _ + 1, [] => []
  | fuel + 1, c :: cs =>
    if wordChar c then
      ((c :: cs).takeWhile wordChar) :: wordRunsAux fuel (cs.dropWhile wordChar)
    else wordRunsAux fuel cs

def wordRuns (s : List Char) : List (List Char) := wordRunsAux s.length s

/-- A full match of `\b[A-Z][a-zA-Z]{3,}\b`: an uppercase ASCII letter
followed by at least three more letters, delimited by word boundaries.
Because the quantifier is greedy and `\b` fails inside a word run, the
matches of `re.findall` are exactly the maximal word runs that are pure
letters, uppercase-initial, and of length at least 4. -/
def isCapWord : List Char → Bool
  | [] => false
  | c :: cs =>
    ('A' ≤ c && c ≤ 'Z') && cs.all (fun d => ('a' ≤ d && d ≤ 'z') || ('A' ≤ d && d ≤ 'Z'))
      && decide (3 ≤ cs.length)

/-- `re.findall(r"\b[A-Z][a-zA-Z]\x7b3,\x7d\b", text)`. -/
def capWords (s : List Char) : List (List Char) := (wordRuns s).filter isCapWord

/-- `dict.fromkeys`: first-seen order, later duplicates dropped. -/
def dedupeAux : List (List Char) → List (List Char) → List (List Char)
  | _, [] => []
  | seen, x :: xs =>
    if x ∈ seen then dedupeAux seen xs else x :: dedupeAux (x :: seen) xs

def dedupeFirst (l : List (List Char)) : List (List Char) := dedupeAux [] l

/-- Lines 220–221: the term-extraction fallback. -/
def fallbackTerms (text : List Char) : List (List Char) :=
  (dedupeFirst (capWords text)).take 6

/-- Line 222: `{"terms": uniq}` as a JSON response body. -/
def termsFallback (text : List Char) : Json :=
  Json.obj [("terms".toList, Json.arr ((fallbackTerms text).map Json.str))]

/-- The extract-terms handler.  The body never references the stores, so
the state is returned unchanged on every path; on a successful model call
whose reply brace-parses, the parsed object is returned verbatim
(`return json.loads(m.group(0))`). -/
def extract_terms (st : ServerState) (student_text : List Char)
    (auth : Option (List Char)) (reply : Option (List Char)) :
    ServerState × Except Nat Json :=
  let token := extractToken auth
  if token = [] then (st, Except.error 401)
  else
    match reply with
    | none => (st, Except.ok (termsFallback student_text))
    | some content =>
      match braceExtract content with
      | none => (st, Except.ok (termsFallback student_text))
      | some m =>
        match jsonLoads m with
        | some j => (st, Except.ok j)
        | none => (st, Except.ok (termsFallback student_text))

/-! ## Concrete inputs used by witnesses and counterexamples -/

def wReq : DialogueRequest :=
  ⟨"Gentle".toList, "Socrates".toList, "What is justice?".toList,
   "Justice is helping friends".toList⟩

def wAuth : Option (List Char) := some "Bearer abcdefgh123".toList

def wOrc : ModelOracle := ⟨some "What do you mean by help?".toList, none, none⟩

/-- A trace record carrying a real detection note. -/
def wTrace1 : TraceRecord :=
  ⟨"claim".toList, Json.str "(auto)".toList, Json.str "circular reasoning".toList,
   Json.arr [], Json.num 70, Json.str "why?".toList, 0, "abcdefgh".toList⟩

def wState1 : ServerState := ⟨[], [wTrace1], []⟩

/-- First state reached by the two-call witness run. -/
def wSt1 : ServerState := (dialogue emptyState wReq wAuth wOrc 0).1

/-- Second state reached by the two-call witness run. -/
def wSt2 : ServerState := (dialogue wSt1 wReq wAuth wOrc 1).1

/-- Response of both witness calls: the raw reply has no braces, so the
whole (stripped) reply is the question and the confidence falls back
to 50. -/
def wResp : DialogueResponse :=
  ⟨[("ai".toList, Json.str "What do you mean by help?".toList)], "ok".toList,
   Json.arr [], Json.num 50⟩

/-- Reply that contains a well-formed question object but whose
first-brace–to–last-brace span is not valid JSON. -/
def c1raw : List Char := "\x7b\"a\": 1\x7d \x7b\"question\": \"Q\"\x7d".toList

/-- Reply with no braces and with surrounding whitespace. -/
def c2raw : List Char := "  What do you mean by justice?  ".toList

/-- Reply whose parsed confidence is out of range. -/
def c3raw : List Char := "\x7b\"question\": \"Q\", \"confidence\": 250\x7d".toList

/-- The claim's invariant on the parse-step confidence: an integer in
[0, 100] or explicitly unset (absent, or JSON null which Python reads
back as `None`). -/
def confidenceClaimOk (c : Option Json) : Prop :=
  c = none ∨ c = some Json.null ∨ ∃ n : Int, c = some (Json.num n) ∧ 0 ≤ n ∧ n ≤ 100

/-- The claimed response shape of `/api/extract_terms`: a JSON object
whose `terms` member is a list of strings. -/
def termsShape (j : Json) : Prop :=
  ∃ ms l, j = Json.obj ms ∧ jget ms "terms".toList = some (Json.arr l) ∧
    ∀ x ∈ l, ∃ s, x = Json.str s

/-- A user's turn count in a state, 0 when the user has no profile. -/
def historyCountAt (st : ServerState) (uid : List Char) : Nat :=
  ((alookup st.session_profiles uid).map UserProfile.history_count).getD 0

/-! ## Helper lemmas: association-list dictionary operations -/

theorem alookup_profileSet_self {β : Type} (ps : List (List Char × β)) (k : List Char) (v : β) :
    alookup (profileSet ps k v) k = some v := by
  induction ps with
  | nil => simp [profileSet, alookup]
  | cons kv rest ih =>
    by_cases h : kv.1 = k
    · simp [profileSet, h, alookup]
    · simp [profileSet, h, alookup, ih]

theorem alookup_profileSet_ne {β : Type} (ps : List (List Char × β)) (k k' : List Char)
    (v : β) (h : k' ≠ k) : alookup (profileSet ps k v) k' = alookup ps k' := by
  induction ps with
  | nil => simp [profileSet, alookup, Ne.symm h]
  | cons kv rest ih =>
    obtain ⟨k1, v1⟩ := kv
    by_cases hk : k1 = k
    · subst hk
      simp [profileSet, alookup, Ne.symm h]
    · simp [profileSet, hk, alookup, ih]

theorem ensureProfile_lookup_self (ps : List (List Char × UserProfile))
    (uid per : List Char) :
    alookup (ensureProfile ps uid per) uid
      = some ((alookup ps uid).getD ⟨per, 0, []⟩) := by
  unfold ensureProfile
  cases h : alookup ps uid with
  | some p => simp [h]
  | none => simp [alookup_profileSet_self]

theorem ensureProfile_lookup_ne (ps : List (List Char × UserProfile))
    (uid per k : List Char) (h : k ≠ uid) :
    alookup (ensureProfile ps uid per) k = alookup ps k := by
  unfold ensureProfile
  cases alookup ps uid with
  | some p => rfl
  | none => exact alookup_profileSet_ne _ _ _ _ h

theorem applyTermsStep_lookup_map (ps : List (List Char × UserProfile))
    (uid : List Char) (r : Option (List Char)) :
    (alookup (applyTermsStep ps uid r) uid).map UserProfile.history_count
      = (alookup ps uid).map UserProfile.history_count := by
  unfold applyTermsStep
  cases termsOf r with
  | none => rfl
  | some terms =>
    cases hp : alookup ps uid with
    | none => simp [hp]
    | some p => simp [hp, alookup_profileSet_self]

theorem applyTermsStep_lookup_ne (ps : List (List Char × UserProfile))
    (uid k : List Char) (r : Option (List Char)) (h : k ≠ uid) :
    alookup (applyTermsStep ps uid r) k = alookup ps k := by
  unfold applyTermsStep
  cases termsOf r with
  | none => rfl
  | some terms =>
    cases alookup ps uid with
    | none => rfl
    | some p => exact alookup_profileSet_ne _ _ _ _ h

theorem bumpHistory_lookup_self (ps : List (List Char × UserProfile))
    (uid : List Char) (p : UserProfile) (h : alookup ps uid = some p) :
    alookup (bumpHistory ps uid) uid
      = some { p with history_count := p.history_count + 1 } := by
  unfold bumpHistory
  rw [h]
  exact alookup_profileSet_self _ _ _

theorem bumpHistory_lookup_ne (ps : List (List Char × UserProfile))
    (uid k : List Char) (h : k ≠ uid) :
    alookup (bumpHistory ps uid) k = alookup ps k := by
  unfold bumpHistory
  cases alookup ps uid with
  | none => rfl
  | some p => exact alookup_profileSet_ne _ _ _ _ h

/-! ## Helper lemmas: order-preserving deduplication -/

theorem dedupeAux_sublist (l : List (List Char)) :
    ∀ seen, (dedupeAux seen l).Sublist l := by
  induction l with
  | nil => intro seen; simp [dedupeAux]
  | cons x xs ih =>
    intro seen
    by_cases hx : x ∈ seen
    · simp only [dedupeAux, if_pos hx]
      exact (ih seen).trans (List.sublist_cons_self _ _)
    · simp only [dedupeAux, if_neg hx]
      exact List.Sublist.cons₂ x (ih (x :: seen))

theorem dedupeAux_nodup (l : List (List Char)) :
    ∀ seen, (dedupeAux seen l).Nodup ∧ ∀ x ∈ dedupeAux seen l, x ∉ seen := by
  induction l with
  | nil => intro seen; simp [dedupeAux]
  | cons x xs ih =>
    intro seen
    by_cases hx : x ∈ seen
    · simp only [dedupeAux, if_pos hx]
      exact ih seen
    · simp only [dedupeAux, if_neg hx]
      obtain ⟨hnd, hnm⟩ := ih (x :: seen)
      refine ⟨List.nodup_cons.mpr ⟨fun hmem => hnm x hmem (List.mem_cons_self x seen), hnd⟩, ?_⟩
      intro y hy
      rcases List.mem_cons.mp hy with rfl | hy2
      · exact hx
      · exact fun hys => hnm y hy2 (List.mem_cons_of_mem _ hys)

theorem dedupeFirst_sublist (l : List (List Char)) : (dedupeFirst l).Sublist l :=
  dedupeAux_sublist l []

theorem dedupeFirst_nodup (l : List (List Char)) : (dedupeFirst l).Nodup :=
  (dedupeAux_nodup l []).1

/-! ## Claim theorems -/

/-- C5: when the selected trace (whole store, or the caller's slice) has
zero records, the summary endpoint returns the fixed "no trace" summary
with score 100, flaws 0, total 0. -/
theorem c5_empty_trace_summary (st : ServerState) (auth : Option (List Char))
    (h : selectTrace st auth = []) :
    get_summary st auth = ⟨"No reasoning trace available.".toList, 100, 0, 0⟩ := by
  simp [get_summary, h]

/-- Witness for C5 at the empty store with no credential. -/
theorem c5_empty_trace_summary_witness :
    selectTrace emptyState none = [] ∧
    get_summary emptyState none = ⟨"No reasoning trace available.".toList, 100, 0, 0⟩ :=
  ⟨rfl, c5_empty_trace_summary emptyState none rfl⟩

/-- C4: on a non-empty selected trace, the summary returns
score = max(0, 100 − 8·flaws) where flaws counts the records whose
detection note is truthy and not the literal "(none)", together with that
flaw count and the total record count; consequently the score is
monotonically non-increasing in the flaw count. -/
theorem c4_summary_formula (st : ServerState) (auth : Option (List Char))
    (h : selectTrace st auth ≠ []) :
    (get_summary st auth).score
        = max 0 (100 - (((selectTrace st auth).filter isFlaw).length : Int) * 8) ∧
    (get_summary st auth).flaws = ((selectTrace st auth).filter isFlaw).length ∧
    (get_summary st auth).total = (selectTrace st auth).length ∧
    ∀ st2 : ServerState, ∀ auth2 : Option (List Char), selectTrace st2 auth2 ≠ [] →
      ((selectTrace st auth).filter isFlaw).length
          ≤ ((selectTrace st2 auth2).filter isFlaw).length →
      (get_summary st2 auth2).score ≤ (get_summary st auth).score := by
  have hne : (selectTrace st auth).isEmpty = false := by
    simp [List.isEmpty_iff, h]
  refine ⟨by simp [get_summary, hne], by simp [get_summary, hne],
    by simp [get_summary, hne], ?_⟩
  intro st2 auth2 h2 hle
  have hne2 : (selectTrace st2 auth2).isEmpty = false := by
    simp [List.isEmpty_iff, h2]
  simp only [get_summary, hne2, hne, Bool.false_eq_true, if_false]
  omega

/-- Witness for C4 at a one-record trace carrying a detection note. -/
theorem c4_summary_formula_witness :
    selectTrace wState1 none ≠ [] ∧
    (get_summary wState1 none).score
      = max 0 (100 - (((selectTrace wState1 none).filter isFlaw).length : Int) * 8) ∧
    (get_summary wState1 none).flaws = ((selectTrace wState1 none).filter isFlaw).length := by
  have h : selectTrace wState1 none ≠ [] :=
    fun hcontra => List.noConfusion (show ([wTrace1] : List TraceRecord) = [] from hcontra)
  exact ⟨h, (c4_summary_formula wState1 none h).1, (c4_summary_formula wState1 none h).2.1⟩

/-- C6: a request to either credential-requiring endpoint with no
credential (empty extracted token, in particular a missing Authorization
header) fails with 401 and leaves all three stores untouched. -/
theorem c6_missing_credential (st : ServerState) (req : DialogueRequest)
    (oracle : ModelOracle) (ts : Int) (text : List Char)
    (treply : Option (List Char)) (auth : Option (List Char))
    (h : extractToken auth = []) :
    dialogue st req auth oracle ts = (st, Except.error 401) ∧
    extract_terms st text auth treply = (st, Except.error 401) := by
  constructor
  · simp [dialogue, h]
  · simp [extract_terms, h]

/-- Witness for C6 with a missing Authorization header. -/
theorem c6_missing_credential_witness :
    extractToken none = [] ∧
    dialogue emptyState wReq none wOrc 0 = (emptyState, Except.error 401) ∧
    extract_terms emptyState "text".toList none none = (emptyState, Except.error 401) :=
  ⟨rfl, (c6_missing_credential emptyState wReq wOrc 0 "text".toList none none rfl).1,
   (c6_missing_credential emptyState wReq wOrc 0 "text".toList none none rfl).2⟩

/-- C8: the term-extraction fallback on the reference sentence yields
exactly ["Justice", "Virtue", "Socrates"]; and in general it produces at
most 6 terms, without duplicates, as an order-preserving subsequence of
the capitalized-word matches, every term being a capitalized word of
length ≥ 4. -/
theorem c8_fallback_terms :
    fallbackTerms "Justice and Virtue are both important to Socrates".toList
      = ["Justice".toList, "Virtue".toList, "Socrates".toList] ∧
    ∀ text : List Char,
      (fallbackTerms text).length ≤ 6 ∧
      (fallbackTerms text).Nodup ∧
      (fallbackTerms text).Sublist (capWords text) ∧
      ∀ w ∈ fallbackTerms text, isCapWord w = true := by
  refine ⟨rfl, fun text => ⟨List.length_take_le _ _, ?_, ?_, ?_⟩⟩
  · exact (List.take_sublist _ _).nodup (dedupeFirst_nodup _)
  · exact (List.take_sublist _ _).trans (dedupeFirst_sublist _)
  · intro w hw
    exact List.of_mem_filter
      ((((List.take_sublist _ _).trans (dedupeFirst_sublist _)).subset hw :
        w ∈ capWords text))

/-- Witness for C8: the concrete extraction, and the length/shape facts
instantiated at the reference sentence and its first extracted term. -/
theorem c8_fallback_terms_witness :
    fallbackTerms "Justice and Virtue are both important to Socrates".toList
        = ["Justice".toList, "Virtue".toList, "Socrates".toList] ∧
    (fallbackTerms "Justice and Virtue are both important to Socrates".toList).length ≤ 6 ∧
    isCapWord "Justice".toList = true :=
  ⟨c8_fallback_terms.1,
   (c8_fallback_terms.2 "Justice and Virtue are both important to Socrates".toList).1,
   (c8_fallback_terms.2 "Justice and Virtue are both important to Socrates".toList).2.2.2
     "Justice".toList
     (by rw [c8_fallback_terms.1]; exact List.mem_cons_self _ _)⟩

/-! ## Helper lemmas: reply recovery and confidence -/

theorem parsedObject_eq_some (raw sub : List Char) (members : List (List Char × Json))
    (hb : braceExtract raw = some sub)
    (hj : jsonLoads sub = some (Json.obj members)) :
    parsedObject raw = some members := by
  unfold parsedObject
  rw [hb]
  show (match jsonLoads sub with
    | some (Json.obj members) => some members
    | _ => none) = some members
  rw [hj]

theorem parsedObject_eq_none (raw : List Char)
    (hnp : ∀ sub, braceExtract raw = some sub → jsonLoads sub = none) :
    parsedObject raw = none := by
  unfold parsedObject
  cases hbe : braceExtract raw with
  | none => rfl
  | some sub =>
    show (match jsonLoads sub with
      | some (Json.obj members) => some members
      | _ => none) = none
    rw [hnp sub hbe]

theorem parseReply_of_members (raw : List Char) (members : List (List Char × Json))
    (h : parsedObject raw = some members) :
    parseReply raw =
      { question := (jget members "question".toList).getD (Json.str (pyStrip raw))
        detection := (jget members "detection".toList).getD (Json.str "(none)".toList)
        fallacies := (jget members "fallacies".toList).getD (Json.arr [])
        confidence := jget members "confidence".toList
        meta := (jget members "meta".toList).getD (Json.str "(auto)".toList) } := by
  unfold parseReply
  rw [h]

theorem parseReply_default (raw : List Char)
    (hnp : ∀ sub, braceExtract raw = some sub → jsonLoads sub = none) :
    parseReply raw =
      ⟨Json.str (pyStrip raw), Json.str "(none)".toList, Json.arr [], none,
       Json.str "(auto)".toList⟩ := by
  unfold parseReply
  rw [parsedObject_eq_none raw hnp]

theorem estimateConfidence_range (est : Option (List Char)) :
    0 ≤ estimateConfidence est ∧ estimateConfidence est ≤ 100 := by
  cases est with
  | none => exact ⟨(by norm_num : (0 : Int) ≤ 50), (by norm_num : (50 : Int) ≤ 100)⟩
  | some c =>
    cases hd : firstDigitRun c with
    | none => simp [estimateConfidence, hd]
    | some ds =>
      simp only [estimateConfidence, hd]
      exact ⟨le_min (by norm_num) (le_max_left 0 _), min_le_left _ _⟩

/-- C1 counterexample: `c1raw` contains the well-formed brace-delimited
object `{"question": "Q"}`, yet the handler's recovered follow-up is the
whole reply, not "Q" — the greedy regex spans from the first brace of
`{"a": 1}` to the final brace, and that span is not valid JSON. -/
theorem c1_counterexample :
    c1raw = "\x7b\"a\": 1\x7d ".toList ++ "\x7b\"question\": \"Q\"\x7d".toList ++ [] ∧
    jsonLoads "\x7b\"question\": \"Q\"\x7d".toList
      = some (Json.obj [("question".toList, Json.str "Q".toList)]) ∧
    jget [("question".toList, Json.str "Q".toList)] "question".toList
      = some (Json.str "Q".toList) ∧
    (parseReply c1raw).question = Json.str c1raw ∧
    ¬ (parseReply c1raw).question = Json.str "Q".toList := by
  refine ⟨rfl, rfl, rfl, rfl, ?_⟩
  intro h
  rw [show (parseReply c1raw).question = Json.str c1raw from rfl] at h
  injection h with h1
  exact absurd h1 (by decide)

/-- C1 (amended): whenever the span from the reply's first brace to its
last closing brace — the match of the greedy scan — parses as a JSON
object with a `question` member, the recovered follow-up question (and
the one returned by the dialogue handler) equals that member's value. -/
theorem c1_amended_question_from_span (st : ServerState) (req : DialogueRequest)
    (auth : Option (List Char)) (ce tr : Option (List Char)) (ts : Int)
    (raw sub : List Char) (members : List (List Char × Json)) (v : Json)
    (htok : extractToken auth ≠ [])
    (hb : braceExtract raw = some sub)
    (hj : jsonLoads sub = some (Json.obj members))
    (hq : jget members "question".toList = some v) :
    (parseReply raw).question = v ∧
    (dialogue st req auth ⟨some raw, ce, tr⟩ ts).2
      = Except.ok ⟨[("ai".toList, v)], "ok".toList, (parseReply raw).fallacies,
          resolveConfidence (parseReply raw).confidence ce⟩ := by
  have hpq : (parseReply raw).question = v := by
    rw [parseReply_of_members raw members (parsedObject_eq_some raw sub members hb hj)]
    show (jget members "question".toList).getD (Json.str (pyStrip raw)) = v
    rw [hq]
    rfl
  exact ⟨hpq, by simp [dialogue, htok, hpq]⟩

/-- Witness for the amended C1 at a clean structured reply. -/
theorem c1_amended_witness :
    extractToken (some "tok".toList) ≠ [] ∧
    (parseReply "\x7b\"question\": \"Q\"\x7d".toList).question = Json.str "Q".toList ∧
    (dialogue emptyState wReq (some "tok".toList)
        ⟨some "\x7b\"question\": \"Q\"\x7d".toList, none, none⟩ 0).2
      = Except.ok ⟨[("ai".toList, Json.str "Q".toList)], "ok".toList,
          (parseReply "\x7b\"question\": \"Q\"\x7d".toList).fallacies,
          resolveConfidence (parseReply "\x7b\"question\": \"Q\"\x7d".toList).confidence none⟩ := by
  have h := c1_amended_question_from_span emptyState wReq (some "tok".toList) none none 0
    "\x7b\"question\": \"Q\"\x7d".toList "\x7b\"question\": \"Q\"\x7d".toList
    [("question".toList, Json.str "Q".toList)] (Json.str "Q".toList)
    (by decide) rfl rfl rfl
  exact ⟨by decide, h.1, h.2⟩

/-- C2 counterexample: a reply with no parseable JSON object and with
surrounding whitespace; the handler's follow-up is the *stripped* reply,
not the entire raw reply text. -/
theorem c2_counterexample :
    braceExtract c2raw = none ∧
    (parseReply c2raw).question = Json.str (pyStrip c2raw) ∧
    pyStrip c2raw = "What do you mean by justice?".toList ∧
    ¬ (parseReply c2raw).question = Json.str c2raw := by
  refine ⟨rfl, rfl, rfl, ?_⟩
  intro h
  rw [show (parseReply c2raw).question = Json.str (pyStrip c2raw) from rfl] at h
  injection h with h1
  exact absurd h1 (by decide)

/-- C2 (amended): when no brace-delimited span of the reply parses, the
handler falls back to the whitespace-stripped raw reply as the follow-up
question, with fallacies = [], detection = "(none)", confidence unset,
interpretation = "(auto)"; the dialogue response and the appended trace
record reflect exactly these defaults. -/
theorem c2_amended_unparseable_defaults (st : ServerState) (req : DialogueRequest)
    (auth : Option (List Char)) (ce tr : Option (List Char)) (ts : Int) (raw : List Char)
    (htok : extractToken auth ≠ [])
    (hnp : ∀ sub, braceExtract raw = some sub → jsonLoads sub = none) :
    parseReply raw
      = ⟨Json.str (pyStrip raw), Json.str "(none)".toList, Json.arr [], none,
         Json.str "(auto)".toList⟩ ∧
    (dialogue st req auth ⟨some raw, ce, tr⟩ ts).2
      = Except.ok ⟨[("ai".toList, Json.str (pyStrip raw))], "ok".toList, Json.arr [],
          Json.num (estimateConfidence ce)⟩ ∧
    ((dialogue st req auth ⟨some raw, ce, tr⟩ ts).1.reasoning_trace.getLast?).map
        (fun t => (t.interpretation, t.detected_issue))
      = some (Json.str "(auto)".toList, Json.str "(none)".toList) := by
  have hpr := parseReply_default raw hnp
  refine ⟨hpr, by simp [dialogue, htok, hpr, resolveConfidence], ?_⟩
  have htr : (dialogue st req auth ⟨some raw, ce, tr⟩ ts).1.reasoning_trace
      = st.reasoning_trace ++
        [⟨req.student_text, pyOr (parseReply raw).meta (Json.str "(auto)".toList),
          pyOr (parseReply raw).detection (Json.str "(none)".toList),
          (parseReply raw).fallacies,
          resolveConfidence (parseReply raw).confidence ce,
          (parseReply raw).question, ts, (extractToken auth).take 8⟩] := by
    simp [dialogue, htok]
  rw [htr, List.getLast?_concat]
  simp [hpr, pyOr, pyTruthy]

/-- Witness for the amended C2 at a short plain-text reply. -/
theorem c2_amended_witness :
    extractToken (some "tok".toList) ≠ [] ∧
    parseReply " hi".toList
      = ⟨Json.str (pyStrip " hi".toList), Json.str "(none)".toList, Json.arr [], none,
         Json.str "(auto)".toList⟩ ∧
    (dialogue emptyState wReq (some "tok".toList) ⟨some " hi".toList, none, none⟩ 0).2
      = Except.ok ⟨[("ai".toList, Json.str (pyStrip " hi".toList))], "ok".toList,
          Json.arr [], Json.num (estimateConfidence none)⟩ := by
  have h := c2_amended_unparseable_defaults emptyState wReq (some "tok".toList) none none 0
    " hi".toList (by decide)
    (fun sub hs => by
      rw [show braceExtract " hi".toList = none from rfl] at hs
      exact Option.noConfusion hs)
  exact ⟨by decide, h.1, h.2.1⟩

/-- C3 counterexample: a reply whose parsed confidence is 250 — before
the fallback estimator would run, confidence is neither unset nor an
integer in [0, 100], the estimator is skipped (confidence is not None),
and the 250 is returned unclamped. -/
theorem c3_counterexample :
    (parseReply c3raw).confidence = some (Json.num 250) ∧
    ¬ confidenceClaimOk (parseReply c3raw).confidence ∧
    (dialogue emptyState wReq (some "tok".toList) ⟨some c3raw, none, none⟩ 0).2
      = Except.ok ⟨[("ai".toList, Json.str "Q".toList)], "ok".toList, Json.arr [],
          Json.num 250⟩ := by
  refine ⟨rfl, ?_, rfl⟩
  intro hc
  rw [show (parseReply c3raw).confidence = some (Json.num 250) from rfl] at hc
  rcases hc with h | h | ⟨n, hn, _, h1⟩
  · exact Option.noConfusion h
  · injection h with h2
    exact Json.noConfusion h2
  · injection hn with h2
    injection h2 with h3
    rw [← h3] at h1
    norm_num at h1

/-- C3 (amended): the parse step passes any supplied confidence through
unchanged, but whenever the fallback estimator runs (confidence unset
after the parse: key absent, or JSON null read back as None), the
resulting confidence is an integer in [0, 100]. -/
theorem c3_amended_estimator_range (pc : Option Json) (est : Option (List Char))
    (h : pc = none ∨ pc = some Json.null) :
    resolveConfidence pc est = Json.num (estimateConfidence est) ∧
    0 ≤ estimateConfidence est ∧ estimateConfidence est ≤ 100 := by
  refine ⟨?_, estimateConfidence_range est⟩
  rcases h with h | h <;> rw [h] <;> rfl

/-- Witness for the amended C3: the estimator path with a failed second
call lands on 50, inside [0, 100]. -/
theorem c3_amended_witness :
    resolveConfidence none none = Json.num (estimateConfidence none) ∧
    0 ≤ estimateConfidence none ∧ estimateConfidence none ≤ 100 :=
  c3_amended_estimator_range none none (Or.inl rfl)

/-- C9 counterexample: on the primary path the handler returns the parsed
object verbatim (`return json.loads(m.group(0))`); a model reply of
`{"foo": 1}` yields a successful response that has no `terms` member at
all, refuting the claimed response shape. -/
theorem c9_counterexample :
    (extract_terms emptyState "text".toList (some "tok".toList)
        (some "\x7b\"foo\": 1\x7d".toList)).2
      = Except.ok (Json.obj [("foo".toList, Json.num 1)]) ∧
    ¬ termsShape (Json.obj [("foo".toList, Json.num 1)]) := by
  refine ⟨rfl, ?_⟩
  rintro ⟨ms, l, hobj, hget, _⟩
  injection hobj with hm
  rw [← hm] at hget
  rw [show jget [("foo".toList, Json.num 1)] "terms".toList = none from rfl] at hget
  exact Option.noConfusion hget

/-- C9 (amended): the {terms: [string...]} shape is guaranteed on the
fallback path — model call raised, no brace match, or parse failure; on
the primary parse-success path the parsed object is returned verbatim,
with no shape guarantee. -/
theorem c9_amended_fallback_shape (st : ServerState) (text : List Char)
    (auth : Option (List Char)) (reply : Option (List Char))
    (htok : extractToken auth ≠ [])
    (hfb : ∀ content, reply = some content →
      ∀ m, braceExtract content = some m → jsonLoads m = none) :
    (extract_terms st text auth reply).2 = Except.ok (termsFallback text) ∧
    termsShape (termsFallback text) := by
  constructor
  · cases reply with
    | none => simp [extract_terms, htok]
    | some content =>
      cases hbe : braceExtract content with
      | none => simp [extract_terms, htok, hbe]
      | some m => simp [extract_terms, htok, hbe, hfb content rfl m hbe]
  · refine ⟨[("terms".toList, Json.arr ((fallbackTerms text).map Json.str))],
      (fallbackTerms text).map Json.str, rfl, rfl, ?_⟩
    intro x hx
    obtain ⟨s, _, rfl⟩ := List.mem_map.mp hx
    exact ⟨s, rfl⟩

/-- Witness for the amended C9: the model call raised, and the fallback
response carries the terms list. -/
theorem c9_amended_witness :
    (extract_terms emptyState "Justice and Virtue are both important to Socrates".toList
        (some "tok".toList) none).2
      = Except.ok (termsFallback "Justice and Virtue are both important to Socrates".toList) ∧
    termsShape (termsFallback "Justice and Virtue are both important to Socrates".toList) :=
  c9_amended_fallback_shape emptyState
    "Justice and Virtue are both important to Socrates".toList
    (some "tok".toList) none (by decide)
    (fun content hc => Option.noConfusion hc)

/-- C10: a dialogue call from a first-time user whose primary model call
raises yields a 500 error, leaves conversations and trace untouched, but
leaves behind the freshly created profile — the error path is not atomic
with respect to the profile store. -/
theorem c10_profile_persists_on_error (st : ServerState) (req : DialogueRequest)
    (auth : Option (List Char)) (ce tr : Option (List Char)) (ts : Int)
    (htok : extractToken auth ≠ [])
    (hfresh : alookup st.session_profiles ((extractToken auth).take 8) = none) :
    (dialogue st req auth ⟨none, ce, tr⟩ ts).2 = Except.error 500 ∧
    alookup (dialogue st req auth ⟨none, ce, tr⟩ ts).1.session_profiles
        ((extractToken auth).take 8) = some ⟨req.persona, 0, []⟩ ∧
    (dialogue st req auth ⟨none, ce, tr⟩ ts).1.conversations = st.conversations ∧
    (dialogue st req auth ⟨none, ce, tr⟩ ts).1.reasoning_trace = st.reasoning_trace := by
  refine ⟨by simp [dialogue, htok], ?_, by simp [dialogue, htok], by simp [dialogue, htok]⟩
  have hsp : (dialogue st req auth ⟨none, ce, tr⟩ ts).1.session_profiles
      = ensureProfile st.session_profiles ((extractToken auth).take 8) req.persona := by
    simp [dialogue, htok]
  rw [hsp, ensureProfile_lookup_self, hfresh]
  rfl

/-- Witness for C10: a fresh user against the empty store. -/
theorem c10_profile_persists_on_error_witness :
    extractToken wAuth ≠ [] ∧
    alookup emptyState.session_profiles ((extractToken wAuth).take 8) = none ∧
    (dialogue emptyState wReq wAuth ⟨none, none, none⟩ 0).2 = Except.error 500 ∧
    alookup (dialogue emptyState wReq wAuth ⟨none, none, none⟩ 0).1.session_profiles
        ((extractToken wAuth).take 8) = some ⟨wReq.persona, 0, []⟩ := by
  have h := c10_profile_persists_on_error emptyState wReq wAuth none none 0 (by decide) rfl
  exact ⟨by decide, rfl, h.1, h.2.1⟩

/-! ## Helper lemmas: successful dialogue calls and the profile pipeline -/

theorem dialogue_ok_token (st st' : ServerState) (req : DialogueRequest)
    (auth : Option (List Char)) (oracle : ModelOracle) (ts : Int) (r : DialogueResponse)
    (hd : dialogue st req auth oracle ts = (st', Except.ok r)) :
    extractToken auth ≠ [] := by
  intro htok
  rw [show dialogue st req auth oracle ts = (st, Except.error 401) from
    by simp [dialogue, htok]] at hd
  simp at hd

theorem dialogue_ok_primary (st st' : ServerState) (req : DialogueRequest)
    (auth : Option (List Char)) (oracle : ModelOracle) (ts : Int) (r : DialogueResponse)
    (hd : dialogue st req auth oracle ts = (st', Except.ok r)) :
    ∃ raw, oracle.primary = some raw := by
  cases hpo : oracle.primary with
  | some raw => exact ⟨raw, rfl⟩
  | none =>
    have htok := dialogue_ok_token st st' req auth oracle ts r hd
    have h2 : (dialogue st req auth oracle ts).2 = Except.error 500 := by
      simp [dialogue, htok, hpo]
    rw [hd] at h2
    simp at h2

theorem dialogue_ok_profiles_eq (st : ServerState) (req : DialogueRequest)
    (auth : Option (List Char)) (oracle : ModelOracle) (ts : Int) (raw : List Char)
    (htok : extractToken auth ≠ []) (hpo : oracle.primary = some raw) :
    (dialogue st req auth oracle ts).1.session_profiles
      = bumpHistory (applyTermsStep
          (ensureProfile st.session_profiles ((extractToken auth).take 8) req.persona)
          ((extractToken auth).take 8) oracle.terms)
          ((extractToken auth).take 8) := by
  simp [dialogue, htok, hpo]

/-- The net effect of one successful call on the caller's turn count:
profile creation leaves the count (0 for a fresh user), the terms step
leaves it, the final increment adds one. -/
theorem pipeline_history (ps : List (List Char × UserProfile)) (uid per : List Char)
    (r : Option (List Char)) :
    ((alookup (bumpHistory (applyTermsStep (ensureProfile ps uid per) uid r) uid) uid).map
        UserProfile.history_count).getD 0
      = ((alookup ps uid).map UserProfile.history_count).getD 0 + 1 := by
  have h2 := applyTermsStep_lookup_map (ensureProfile ps uid per) uid r
  rw [ensureProfile_lookup_self ps uid per] at h2
  cases h3 : alookup (applyTermsStep (ensureProfile ps uid per) uid r) uid with
  | none => rw [h3] at h2; simp at h2
  | some q2 =>
    rw [h3] at h2
    simp only [Option.map_some'] at h2
    have h2c : q2.history_count
        = ((alookup ps uid).getD ⟨per, 0, []⟩).history_count := Option.some.inj h2
    rw [bumpHistory_lookup_self _ _ _ h3]
    simp only [Option.map_some', Option.getD_some]
    rw [h2c]
    cases hps : alookup ps uid with
    | none => simp [hps]
    | some p0 => simp [hps]

theorem pipeline_frame (ps : List (List Char × UserProfile)) (uid per k : List Char)
    (r : Option (List Char)) (h : k ≠ uid) :
    alookup (bumpHistory (applyTermsStep (ensureProfile ps uid per) uid r) uid) k
      = alookup ps k := by
  rw [bumpHistory_lookup_ne _ _ _ h, applyTermsStep_lookup_ne _ _ _ _ h,
    ensureProfile_lookup_ne _ _ _ _ h]

/-- C7: two sequential successful dialogue calls with the same credential
increment that user's turn count by exactly 1 each, and leave every other
user's profile binding exactly as it was. -/
theorem c7_turn_count_increment (st0 st1 st2 : ServerState) (req1 req2 : DialogueRequest)
    (auth : Option (List Char)) (o1 o2 : ModelOracle) (ts1 ts2 : Int)
    (r1 r2 : DialogueResponse)
    (hd1 : dialogue st0 req1 auth o1 ts1 = (st1, Except.ok r1))
    (hd2 : dialogue st1 req2 auth o2 ts2 = (st2, Except.ok r2)) :
    historyCountAt st1 ((extractToken auth).take 8)
        = historyCountAt st0 ((extractToken auth).take 8) + 1 ∧
    historyCountAt st2 ((extractToken auth).take 8)
        = historyCountAt st1 ((extractToken auth).take 8) + 1 ∧
    ∀ k, k ≠ (extractToken auth).take 8 →
      alookup st2.session_profiles k = alookup st0.session_profiles k := by
  have htok := dialogue_ok_token st0 st1 req1 auth o1 ts1 r1 hd1
  obtain ⟨raw1, hp1⟩ := dialogue_ok_primary st0 st1 req1 auth o1 ts1 r1 hd1
  obtain ⟨raw2, hp2⟩ := dialogue_ok_primary st1 st2 req2 auth o2 ts2 r2 hd2
  have e1 : st1.session_profiles
      = bumpHistory (applyTermsStep
          (ensureProfile st0.session_profiles ((extractToken auth).take 8) req1.persona)
          ((extractToken auth).take 8) o1.terms) ((extractToken auth).take 8) := by
    have h := dialogue_ok_profiles_eq st0 req1 auth o1 ts1 raw1 htok hp1
    rw [hd1] at h
    exact h
  have e2 : st2.session_profiles
      = bumpHistory (applyTermsStep
          (ensureProfile st1.session_profiles ((extractToken auth).take 8) req2.persona)
          ((extractToken auth).take 8) o2.terms) ((extractToken auth).take 8) := by
    have h := dialogue_ok_profiles_eq st1 req2 auth o2 ts2 raw2 htok hp2
    rw [hd2] at h
    exact h
  refine ⟨?_, ?_, ?_⟩
  · unfold historyCountAt
    rw [e1]
    exact pipeline_history _ _ _ _
  · unfold historyCountAt
    rw [e2]
    exact pipeline_history _ _ _ _
  · intro k hk
    calc alookup st2.session_profiles k
        = alookup st1.session_profiles k := by rw [e2]; exact pipeline_frame _ _ _ _ _ hk
      _ = alookup st0.session_profiles k := by rw [e1]; exact pipeline_frame _ _ _ _ _ hk

/-- Witness for C7: two successful calls from the same token against the
empty store; the count goes 0 → 1 → 2. -/
theorem c7_turn_count_increment_witness :
    dialogue emptyState wReq wAuth wOrc 0 = (wSt1, Except.ok wResp) ∧
    dialogue wSt1 wReq wAuth wOrc 1 = (wSt2, Except.ok wResp) ∧
    historyCountAt wSt1 "abcdefgh".toList = historyCountAt emptyState "abcdefgh".toList + 1 ∧
    historyCountAt wSt2 "abcdefgh".toList = historyCountAt wSt1 "abcdefgh".toList + 1 := by
  have h := c7_turn_count_increment emptyState wSt1 wSt2 wReq wReq wAuth wOrc wOrc 0 1
    wResp wResp rfl rfl
  exact ⟨rfl, rfl, h.1, h.2.1⟩
